import Mathlib

/-!
Verification of the Mars Rover navigation core (rover.py).

The embedding below translates the classes of rover.py into Lean:
the four Direction classes become an inductive type, Grid and Rover
become structures, the methods become functions, and the Command
hierarchy becomes an inductive with a dispatch function.  The mutable
Python methods are rendered as state-passing functions returning the
updated Rover (paired with the boolean result where the source returns
one).
-/

/-- Embeds the four Direction subclasses North, East, South, West of
rover.py as a closed enumeration. -/
inductive Direction where
  | North
  | East
  | South
  | West
deriving DecidableEq, Repr

namespace Direction

/-- Embeds the move_forward methods of the four Direction classes:
North increases y, East increases x, South decreases y, West decreases x. -/
def move_forward : Direction → Int → Int → Int × Int
  | .North, x, y => (x, y + 1)
  | .East,  x, y => (x + 1, y)
  | .South, x, y => (x, y - 1)
  | .West,  x, y => (x - 1, y)

/-- Embeds the turn_left methods: North→West, East→North, South→East, West→South. -/
def turn_left : Direction → Direction
  | .North => .West
  | .East  => .North
  | .South => .East
  | .West  => .South

/-- Embeds the turn_right methods: North→East, East→South, South→West, West→North. -/
def turn_right : Direction → Direction
  | .North => .East
  | .East  => .South
  | .South => .West
  | .West  => .North

end Direction

/-- Embeds class Grid of rover.py: width, height and an obstacle list. -/
structure Grid where
  width : Int
  height : Int
  obstacles : List (Int × Int)
deriving DecidableEq, Repr

namespace Grid

/-- Embeds Grid.has_obstacle: membership of (x, y) in the obstacle list. -/
def has_obstacle (g : Grid) (x y : Int) : Bool :=
  (x, y) ∈ g.obstacles

/-- Embeds Grid.is_valid_position: 0 <= x < width and 0 <= y < height. -/
def is_valid_position (g : Grid) (x y : Int) : Bool :=
  0 ≤ x && x < g.width && 0 ≤ y && y < g.height

end Grid

/-- Embeds class Rover of rover.py: position, direction, grid,
path history and command counter. -/
structure Rover where
  x : Int
  y : Int
  direction : Direction
  grid : Grid
  path_history : List (Int × Int)
  command_count : Nat
deriving DecidableEq, Repr

namespace Rover

/-- Embeds Rover.__init__: the history is seeded with the initial position
and the command counter starts at 0. -/
def init (x y : Int) (direction : Direction) (grid : Grid) : Rover :=
  { x := x, y := y, direction := direction, grid := grid,
    path_history := [(x, y)], command_count := 0 }

/-- Embeds Rover.move_forward.  The Python method mutates self and returns
a bool; here it returns the updated rover paired with that bool.  Note the
source returns False on either guard before touching any field, so a
blocked move leaves the rover (command counter included) unchanged. -/
def move_forward (r : Rover) : Rover × Bool :=
  let c := r.direction.move_forward r.x r.y
  if ¬ r.grid.is_valid_position c.1 c.2 then
    (r, false)
  else if r.grid.has_obstacle c.1 c.2 then
    (r, false)
  else
    ({ r with x := c.1, y := c.2,
              path_history := r.path_history ++ [(c.1, c.2)],
              command_count := r.command_count + 1 }, true)

/-- Embeds Rover.turn_left: replace the direction, bump the counter. -/
def turn_left (r : Rover) : Rover :=
  { r with direction := r.direction.turn_left,
           command_count := r.command_count + 1 }

/-- Embeds Rover.turn_right: replace the direction, bump the counter. -/
def turn_right (r : Rover) : Rover :=
  { r with direction := r.direction.turn_right,
           command_count := r.command_count + 1 }

/-- Embeds the cells_visited entry of Rover.get_status:
len(set(self.path_history)), the number of distinct visited cells. -/
def cells_visited (r : Rover) : Nat :=
  r.path_history.dedup.length

/-- The combined guard of Rover.move_forward: the candidate cell the rover
faces is in bounds and obstacle-free.  move_forward succeeds exactly when
this holds. -/
def moveAllowed (r : Rover) : Bool :=
  let c := r.direction.move_forward r.x r.y
  r.grid.is_valid_position c.1 c.2 && ! r.grid.has_obstacle c.1 c.2

end Rover

/-- Embeds the result of Rover.get_status: position, direction, the
commands-executed counter and the distinct-cells count. -/
structure Status where
  x : Int
  y : Int
  direction : Direction
  commands_executed : Nat
  cells_visited : Nat
deriving DecidableEq, Repr

/-- Embeds Rover.get_status. -/
def Rover.get_status (r : Rover) : Status :=
  { x := r.x, y := r.y, direction := r.direction,
    commands_executed := r.command_count,
    cells_visited := r.cells_visited }

/-- Embeds the Command class hierarchy MoveForward / TurnLeft / TurnRight. -/
inductive Command where
  | MoveForward
  | TurnLeft
  | TurnRight
deriving DecidableEq, Repr

/-- Embeds Command.execute: dispatch to the matching Rover method
(the boolean result of move_forward is discarded by the dispatch layer,
as in the source). -/
def Command.execute : Command → Rover → Rover
  | .MoveForward, r => r.move_forward.1
  | .TurnLeft,    r => r.turn_left
  | .TurnRight,   r => r.turn_right

/-- Embeds the command loop of main (and demo.py): apply a list of
commands to a rover one at a time. -/
def runCommands (r : Rover) (cs : List Command) : Rover :=
  cs.foldl (fun s c => c.execute s) r

/-- Embeds the direction_map dictionary of initialize_rover. -/
def direction_map : List (String × Direction) :=
  [("N", .North), ("E", .East), ("S", .South), ("W", .West)]

/-- Embeds the rover-construction part of initialize_rover for an
explicitly supplied start_direction token: the source evaluates
direction_map[token], and a Python dict subscript raises KeyError on a
missing key, modelled here as none.  No default direction is substituted
for an unrecognized token. -/
def initialize_rover (width height : Int) (obstacles : List (Int × Int))
    (x y : Int) (tok : String) : Option Rover :=
  match direction_map.lookup tok with
  | none => none
  | some d => some (Rover.init x y d (Grid.mk width height obstacles))

/-!
Helper lemmas shared by the claim theorems.
-/

/-- Appending one cell to a path extends the distinct-cell count by one
exactly when the cell is new. -/
lemma length_dedup_append_singleton (l : List (Int × Int)) (c : Int × Int) :
    (l ++ [c]).dedup.length = l.dedup.length + (if c ∈ l then 0 else 1) := by
  rw [← List.card_toFinset, ← List.card_toFinset, List.toFinset_append]
  have hc : ([c] : List (Int × Int)).toFinset = {c} := by simp
  rw [hc]
  by_cases h : c ∈ l
  · have hu : l.toFinset ∪ {c} = l.toFinset := by
      rw [Finset.union_eq_left]
      simpa using h
    rw [hu, if_pos h]
    omega
  · have hu : l.toFinset ∪ {c} = insert c l.toFinset := by
      rw [Finset.union_comm, ← Finset.insert_eq]
    rw [hu, Finset.card_insert_of_not_mem (by simpa using h), if_neg h]

/-- Appending a cell never shrinks the distinct-cell count. -/
lemma length_dedup_le_append_singleton (l : List (Int × Int)) (c : Int × Int) :
    l.dedup.length ≤ (l ++ [c]).dedup.length := by
  rw [length_dedup_append_singleton]
  split <;> omega

/-- Appending a cell grows the distinct-cell count by at most one. -/
lemma length_dedup_append_singleton_le (l : List (Int × Int)) (c : Int × Int) :
    (l ++ [c]).dedup.length ≤ l.dedup.length + 1 := by
  rw [length_dedup_append_singleton]
  split <;> omega

/-- A blocked move_forward returns the rover unchanged with result false:
the source returns False from either guard before mutating anything. -/
lemma move_forward_blocked (r : Rover) (h : r.moveAllowed = false) :
    r.move_forward = (r, false) := by
  unfold Rover.move_forward
  unfold Rover.moveAllowed at h
  by_cases hv : r.grid.is_valid_position (r.direction.move_forward r.x r.y).1
      (r.direction.move_forward r.x r.y).2 = true
  · simp only [hv, Bool.true_and, Bool.not_eq_false'] at h
    simp [hv, h]
  · simp [Bool.not_eq_true] at hv
    simp [hv]

/-- A permitted move_forward performs the whole update and returns true. -/
lemma move_forward_allowed (r : Rover) (h : r.moveAllowed = true) :
    r.move_forward =
      ({ r with x := (r.direction.move_forward r.x r.y).1,
                y := (r.direction.move_forward r.x r.y).2,
                path_history := r.path_history ++
                  [((r.direction.move_forward r.x r.y).1,
                    (r.direction.move_forward r.x r.y).2)],
                command_count := r.command_count + 1 }, true) := by
  unfold Rover.move_forward
  unfold Rover.moveAllowed at h
  rw [Bool.and_eq_true] at h
  obtain ⟨hv, ho⟩ := h
  rw [Bool.not_eq_true'] at ho
  simp [hv, ho]

/-- Properties preserved by every command hold of every state reachable by
running a command list. -/
lemma runCommands_preserves (P : Rover → Prop) (r : Rover)
    (h0 : P r) (hstep : ∀ s c, P s → P (Command.execute c s))
    (cs : List Command) : P (runCommands r cs) := by
  induction cs generalizing r with
  | nil => exact h0
  | cons c cs ih => exact ih _ (hstep _ _ h0)

/-- Applying any single command never decreases the distinct-cell count. -/
lemma cells_visited_execute_le (r : Rover) (c : Command) :
    r.cells_visited ≤ (Command.execute c r).cells_visited := by
  cases c with
  | TurnLeft => exact le_refl _
  | TurnRight => exact le_refl _
  | MoveForward =>
      show r.cells_visited ≤ r.move_forward.1.cells_visited
      cases hm : r.moveAllowed with
      | false => rw [move_forward_blocked r hm]
      | true =>
          rw [move_forward_allowed r hm]
          exact length_dedup_le_append_singleton _ _

/-- Applying any single command preserves the coverage bound
cells_visited ≤ command_count + 1. -/
lemma execute_preserves_coverage (r : Rover) (c : Command)
    (h : r.cells_visited ≤ r.command_count + 1) :
    (Command.execute c r).cells_visited ≤ (Command.execute c r).command_count + 1 := by
  cases c with
  | TurnLeft =>
      show r.turn_left.cells_visited ≤ r.turn_left.command_count + 1
      have h1 : r.turn_left.cells_visited = r.cells_visited := rfl
      have h2 : r.turn_left.command_count = r.command_count + 1 := rfl
      rw [h1, h2]
      omega
  | TurnRight =>
      show r.turn_right.cells_visited ≤ r.turn_right.command_count + 1
      have h1 : r.turn_right.cells_visited = r.cells_visited := rfl
      have h2 : r.turn_right.command_count = r.command_count + 1 := rfl
      rw [h1, h2]
      omega
  | MoveForward =>
      show r.move_forward.1.cells_visited ≤ r.move_forward.1.command_count + 1
      cases hm : r.moveAllowed with
      | false => rw [move_forward_blocked r hm]; exact h
      | true =>
          rw [move_forward_allowed r hm]
          show (r.path_history ++ [_]).dedup.length ≤ r.command_count + 1 + 1
          have := length_dedup_append_singleton_le r.path_history
            ((r.direction.move_forward r.x r.y).1, (r.direction.move_forward r.x r.y).2)
          have hcv : r.cells_visited = r.path_history.dedup.length := rfl
          omega

/-- Applying any single command keeps the last history entry equal to the
current position. -/
lemma execute_preserves_getLast (r : Rover) (c : Command)
    (h : r.path_history.getLast? = some (r.x, r.y)) :
    (Command.execute c r).path_history.getLast?
      = some ((Command.execute c r).x, (Command.execute c r).y) := by
  cases c with
  | TurnLeft => exact h
  | TurnRight => exact h
  | MoveForward =>
      show r.move_forward.1.path_history.getLast?
        = some (r.move_forward.1.x, r.move_forward.1.y)
      cases hm : r.moveAllowed with
      | false => rw [move_forward_blocked r hm]; exact h
      | true =>
          rw [move_forward_allowed r hm]
          simp

/-!
Claim theorems.
-/

/-- Claim C1 is false on the code: in Scenario B (10x10 grid, obstacle at
(5,6), rover at (5,5) facing North) the single Move command is blocked and
Rover.move_forward returns before incrementing command_count, so
command_count is 0, not 1. -/
theorem c1_counterexample :
    ¬ ((runCommands (Rover.init 5 5 .North (Grid.mk 10 10 [(5, 6)]))
          [Command.MoveForward]).command_count = 1) := by
  decide

/-- C1 amended: command_count increases by exactly 1 for every turn and for
every successful MoveForward, but a MoveForward blocked by a boundary or an
obstacle leaves command_count unchanged (the source returns False before
the increment); in Scenario B a single Move leaves command_count equal
to 0. -/
theorem c1_blocked_move_does_not_count :
    (∀ r : Rover, r.moveAllowed = false →
        r.move_forward.1.command_count = r.command_count) ∧
    (∀ r : Rover, r.moveAllowed = true →
        r.move_forward.1.command_count = r.command_count + 1) ∧
    (∀ r : Rover, r.turn_left.command_count = r.command_count + 1 ∧
        r.turn_right.command_count = r.command_count + 1) ∧
    (runCommands (Rover.init 5 5 .North (Grid.mk 10 10 [(5, 6)]))
        [Command.MoveForward]).command_count = 0 := by
  refine ⟨fun r h => ?_, fun r h => ?_, fun r => ⟨rfl, rfl⟩, by decide⟩
  · rw [move_forward_blocked r h]
  · rw [move_forward_allowed r h]

/-- Witness for c1_blocked_move_does_not_count at the Scenario B rover. -/
theorem c1_blocked_move_does_not_count_witness :
    (Rover.init 5 5 .North (Grid.mk 10 10 [(5, 6)])).moveAllowed = false ∧
    (Rover.init 5 5 .North (Grid.mk 10 10 [(5, 6)])).move_forward.1.command_count
      = (Rover.init 5 5 .North (Grid.mk 10 10 [(5, 6)])).command_count :=
  ⟨by decide, c1_blocked_move_does_not_count.1 _ (by decide)⟩

/-- Claim C2 is false on the code: in Scenario A the fifth command
(MoveForward towards (2,2)) hits the obstacle at (2,2), so the run ends at
(1,3) facing North with command_count 6, not at (2,4) with
command_count 7. -/
theorem c2_counterexample :
    ¬ (((runCommands (Rover.init 0 0 .North (Grid.mk 10 10 [(2, 2), (3, 5), (7, 8)]))
          [Command.MoveForward, Command.MoveForward, Command.TurnRight,
           Command.MoveForward, Command.MoveForward, Command.TurnLeft,
           Command.MoveForward]).x = 2 ∧
        (runCommands (Rover.init 0 0 .North (Grid.mk 10 10 [(2, 2), (3, 5), (7, 8)]))
          [Command.MoveForward, Command.MoveForward, Command.TurnRight,
           Command.MoveForward, Command.MoveForward, Command.TurnLeft,
           Command.MoveForward]).y = 4 ∧
        (runCommands (Rover.init 0 0 .North (Grid.mk 10 10 [(2, 2), (3, 5), (7, 8)]))
          [Command.MoveForward, Command.MoveForward, Command.TurnRight,
           Command.MoveForward, Command.MoveForward, Command.TurnLeft,
           Command.MoveForward]).direction = Direction.North ∧
        (runCommands (Rover.init 0 0 .North (Grid.mk 10 10 [(2, 2), (3, 5), (7, 8)]))
          [Command.MoveForward, Command.MoveForward, Command.TurnRight,
           Command.MoveForward, Command.MoveForward, Command.TurnLeft,
           Command.MoveForward]).command_count = 7)) := by
  decide

/-- C2 amended: in Scenario A the rover ends at position (1,3) facing
North with command_count equal to 6 (the move into the obstacle at (2,2)
is rejected and, in this code, not counted). -/
theorem c2_scenario_a :
    (runCommands (Rover.init 0 0 .North (Grid.mk 10 10 [(2, 2), (3, 5), (7, 8)]))
        [Command.MoveForward, Command.MoveForward, Command.TurnRight,
         Command.MoveForward, Command.MoveForward, Command.TurnLeft,
         Command.MoveForward]).x = 1 ∧
    (runCommands (Rover.init 0 0 .North (Grid.mk 10 10 [(2, 2), (3, 5), (7, 8)]))
        [Command.MoveForward, Command.MoveForward, Command.TurnRight,
         Command.MoveForward, Command.MoveForward, Command.TurnLeft,
         Command.MoveForward]).y = 3 ∧
    (runCommands (Rover.init 0 0 .North (Grid.mk 10 10 [(2, 2), (3, 5), (7, 8)]))
        [Command.MoveForward, Command.MoveForward, Command.TurnRight,
         Command.MoveForward, Command.MoveForward, Command.TurnLeft,
         Command.MoveForward]).direction = Direction.North ∧
    (runCommands (Rover.init 0 0 .North (Grid.mk 10 10 [(2, 2), (3, 5), (7, 8)]))
        [Command.MoveForward, Command.MoveForward, Command.TurnRight,
         Command.MoveForward, Command.MoveForward, Command.TurnLeft,
         Command.MoveForward]).command_count = 6 := by
  decide

/-- Claim C5: turn_left and turn_right are mutual inverses and 4-cycles,
with turn_left the cycle North→West→South→East→North and turn_right the
inverse cycle North→East→South→West→North. -/
theorem c5_turn_algebra :
    (∀ d : Direction, d.turn_left.turn_right = d ∧ d.turn_right.turn_left = d ∧
        d.turn_left.turn_left.turn_left.turn_left = d ∧
        d.turn_right.turn_right.turn_right.turn_right = d) ∧
    (Direction.North.turn_left = .West ∧ Direction.West.turn_left = .South ∧
     Direction.South.turn_left = .East ∧ Direction.East.turn_left = .North) ∧
    (Direction.North.turn_right = .East ∧ Direction.East.turn_right = .South ∧
     Direction.South.turn_right = .West ∧ Direction.West.turn_right = .North) := by
  refine ⟨fun d => ?_, by decide, by decide⟩
  cases d <;> exact ⟨rfl, rfl, rfl, rfl⟩

/-- Claim C7: the two turn operations always succeed, replace the heading
by its turned value, increment command_count by 1 and leave position and
path history untouched. -/
theorem c7_turns_total_frame (r : Rover) :
    r.turn_left.direction = r.direction.turn_left ∧
    r.turn_left.command_count = r.command_count + 1 ∧
    r.turn_left.x = r.x ∧ r.turn_left.y = r.y ∧
    r.turn_left.path_history = r.path_history ∧
    r.turn_right.direction = r.direction.turn_right ∧
    r.turn_right.command_count = r.command_count + 1 ∧
    r.turn_right.x = r.x ∧ r.turn_right.y = r.y ∧
    r.turn_right.path_history = r.path_history :=
  ⟨rfl, rfl, rfl, rfl, rfl, rfl, rfl, rfl, rfl, rfl⟩

/-- Claim C9: a blocked move is atomic — when move_forward returns false the
whole rover record (position, heading, command counter, path history, grid)
is unchanged. -/
theorem c9_blocked_move_atomic (r : Rover) (h : r.moveAllowed = false) :
    r.move_forward.1 = r ∧ r.move_forward.2 = false := by
  rw [move_forward_blocked r h]
  exact ⟨rfl, rfl⟩

/-- Witness for c9_blocked_move_atomic at the Scenario B rover. -/
theorem c9_blocked_move_atomic_witness :
    (Rover.init 5 5 .North (Grid.mk 10 10 [(5, 6)])).moveAllowed = false ∧
    ((Rover.init 5 5 .North (Grid.mk 10 10 [(5, 6)])).move_forward.1
       = Rover.init 5 5 .North (Grid.mk 10 10 [(5, 6)]) ∧
     (Rover.init 5 5 .North (Grid.mk 10 10 [(5, 6)])).move_forward.2 = false) :=
  ⟨by decide, c9_blocked_move_atomic _ (by decide)⟩

/-- Claim C3: when the candidate cell ahead is in bounds and obstacle-free,
move_forward returns true, moves the rover onto the candidate, appends the
candidate to the history, increments command_count by exactly 1, and
increments the distinct-cells count by 1 when the destination is new and by
0 otherwise. -/
theorem c3_successful_move (r : Rover)
    (hv : r.grid.is_valid_position (r.direction.move_forward r.x r.y).1
            (r.direction.move_forward r.x r.y).2 = true)
    (ho : r.grid.has_obstacle (r.direction.move_forward r.x r.y).1
            (r.direction.move_forward r.x r.y).2 = false) :
    r.move_forward.2 = true ∧
    r.move_forward.1.x = (r.direction.move_forward r.x r.y).1 ∧
    r.move_forward.1.y = (r.direction.move_forward r.x r.y).2 ∧
    r.move_forward.1.path_history = r.path_history ++
      [((r.direction.move_forward r.x r.y).1, (r.direction.move_forward r.x r.y).2)] ∧
    r.move_forward.1.command_count = r.command_count + 1 ∧
    r.move_forward.1.cells_visited = r.cells_visited +
      (if ((r.direction.move_forward r.x r.y).1, (r.direction.move_forward r.x r.y).2)
          ∈ r.path_history then 0 else 1) := by
  have h : r.moveAllowed = true := by
    simp only [Rover.moveAllowed]
    rw [hv, ho]
    rfl
  rw [move_forward_allowed r h]
  refine ⟨rfl, rfl, rfl, rfl, rfl, ?_⟩
  exact length_dedup_append_singleton _ _

/-- Witness for c3_successful_move: the rover at (5,5) facing North on an
open 10x10 grid moves to (5,6). -/
theorem c3_successful_move_witness :
    ((Rover.init 5 5 .North (Grid.mk 10 10 [])).grid.is_valid_position 5 6 = true ∧
     (Rover.init 5 5 .North (Grid.mk 10 10 [])).grid.has_obstacle 5 6 = false) ∧
    ((Rover.init 5 5 .North (Grid.mk 10 10 [])).move_forward.2 = true ∧
     (Rover.init 5 5 .North (Grid.mk 10 10 [])).move_forward.1.x = 5 ∧
     (Rover.init 5 5 .North (Grid.mk 10 10 [])).move_forward.1.y = 6 ∧
     (Rover.init 5 5 .North (Grid.mk 10 10 [])).move_forward.1.command_count = 1 ∧
     (Rover.init 5 5 .North (Grid.mk 10 10 [])).move_forward.1.cells_visited = 2) := by
  have h := c3_successful_move (Rover.init 5 5 .North (Grid.mk 10 10 []))
    (by decide) (by decide)
  refine ⟨⟨by decide, by decide⟩, h.1, h.2.1, h.2.2.1, ?_, ?_⟩
  · rw [h.2.2.2.2.1]
    decide
  · rw [h.2.2.2.2.2]
    decide

/-- Claim C4: a MoveForward whose candidate cell is out of bounds or
occupied returns false and leaves the position unchanged, and the
rejection is idempotent — iterating the (state part of) move_forward any
number of times from such a state leaves the state fixed and every call
returns false; in Scenario C (open 10x10 grid, rover at (0,0) facing
South) a single Move returns false and the position stays (0,0).  The
embedding is total, mirroring that the source raises no exception here. -/
theorem c4_rejection_idempotent (r : Rover) (h : r.moveAllowed = false) :
    (∀ n : Nat,
      (fun s : Rover => s.move_forward.1)^[n] r = r ∧
      ((fun s : Rover => s.move_forward.1)^[n] r).move_forward.2 = false) ∧
    (Rover.init 0 0 .South (Grid.mk 10 10 [])).move_forward.2 = false ∧
    (Rover.init 0 0 .South (Grid.mk 10 10 [])).move_forward.1.x = 0 ∧
    (Rover.init 0 0 .South (Grid.mk 10 10 [])).move_forward.1.y = 0 := by
  have hfix : (fun s : Rover => s.move_forward.1) r = r := by
    show r.move_forward.1 = r
    rw [move_forward_blocked r h]
  refine ⟨fun n => ?_, by decide, by decide, by decide⟩
  have hit := @Function.iterate_fixed Rover (fun s : Rover => s.move_forward.1) r hfix n
  refine ⟨hit, ?_⟩
  rw [hit, move_forward_blocked r h]

/-- Witness for c4_rejection_idempotent at the Scenario C rover. -/
theorem c4_rejection_idempotent_witness :
    (Rover.init 0 0 .South (Grid.mk 10 10 [])).moveAllowed = false ∧
    ((fun s : Rover => s.move_forward.1)^[3]
        (Rover.init 0 0 .South (Grid.mk 10 10 []))
      = Rover.init 0 0 .South (Grid.mk 10 10 []) ∧
     ((fun s : Rover => s.move_forward.1)^[3]
        (Rover.init 0 0 .South (Grid.mk 10 10 []))).move_forward.2 = false) :=
  ⟨by decide, (c4_rejection_idempotent _ (by decide)).1 3⟩

/-- Claim C6: along any mission from any starting configuration, the
distinct-cells count stays at most command_count + 1, and applying one more
command never decreases it. -/
theorem c6_coverage_invariant (x y : Int) (d : Direction) (g : Grid)
    (cs : List Command) :
    (runCommands (Rover.init x y d g) cs).cells_visited
      ≤ (runCommands (Rover.init x y d g) cs).command_count + 1 ∧
    ∀ c : Command,
      (runCommands (Rover.init x y d g) cs).cells_visited
        ≤ (Command.execute c (runCommands (Rover.init x y d g) cs)).cells_visited := by
  constructor
  · refine runCommands_preserves (fun s => s.cells_visited ≤ s.command_count + 1)
      _ ?_ (fun s c hs => execute_preserves_coverage s c hs) cs
    show ([(x, y)] : List (Int × Int)).dedup.length ≤ 0 + 1
    simp
  · intro c
    exact cells_visited_execute_le _ c

/-- Claim C8: initialize_rover given a heading token outside {N, E, S, W}
fails (returns none) instead of substituting a default heading. -/
theorem c8_unrecognized_direction_fails (width height : Int)
    (obstacles : List (Int × Int)) (x y : Int) (tok : String)
    (h : tok ≠ "N" ∧ tok ≠ "E" ∧ tok ≠ "S" ∧ tok ≠ "W") :
    initialize_rover width height obstacles x y tok = none := by
  obtain ⟨h1, h2, h3, h4⟩ := h
  have e1 : (tok == "N") = false := beq_eq_false_iff_ne.mpr h1
  have e2 : (tok == "E") = false := beq_eq_false_iff_ne.mpr h2
  have e3 : (tok == "S") = false := beq_eq_false_iff_ne.mpr h3
  have e4 : (tok == "W") = false := beq_eq_false_iff_ne.mpr h4
  unfold initialize_rover direction_map
  simp [List.lookup, e1, e2, e3, e4]

/-- Witness for c8_unrecognized_direction_fails at the token X. -/
theorem c8_unrecognized_direction_fails_witness :
    (("X" : String) ≠ "N" ∧ ("X" : String) ≠ "E" ∧
     ("X" : String) ≠ "S" ∧ ("X" : String) ≠ "W") ∧
    initialize_rover 10 10 [] 0 0 "X" = none :=
  ⟨by decide, c8_unrecognized_direction_fails 10 10 [] 0 0 "X" (by decide)⟩

/-- Claim C10: after construction and after any command sequence, the path
history is non-empty and its last entry is the current position. -/
theorem c10_history_tracks_position (x y : Int) (d : Direction) (g : Grid)
    (cs : List Command) :
    (runCommands (Rover.init x y d g) cs).path_history ≠ [] ∧
    (runCommands (Rover.init x y d g) cs).path_history.getLast?
      = some ((runCommands (Rover.init x y d g) cs).x,
              (runCommands (Rover.init x y d g) cs).y) := by
  have key : (runCommands (Rover.init x y d g) cs).path_history.getLast?
      = some ((runCommands (Rover.init x y d g) cs).x,
              (runCommands (Rover.init x y d g) cs).y) :=
    runCommands_preserves (fun s => s.path_history.getLast? = some (s.x, s.y))
      _ (by simp [Rover.init]) (fun s c hs => execute_preserves_getLast s c hs) cs
  refine ⟨?_, key⟩
  intro hnil
  rw [hnil] at key
  simp at key
